import Mathlib

/-!
Verification of the HarnessAI orchestrator core (submission-processing
pipeline).  The definitions below are a shallow embedding of the Python
source under `app/`: pure helpers (`normalize_url`, `extract_domain`,
`validate_email_domain`, `check_data_sufficiency`, `validate_profile`)
are translated directly; stateful or effectful code (the Redis rate
limiter, the retrying profile synthesis, the background pipeline) is
modelled by explicit state passing, with external effects (provider
calls, the upstream generative-text API, the database) represented as
explicit input parameters enumerating the outcomes the source
distinguishes.  Machine-level concerns do not arise: all numbers
involved are small non-negative counters and timestamps, modelled as
`Nat`, and ratings as `Rat`.
-/

namespace Harness

/-! ### Python-style primitives

`pyIn n h` is Python's substring test `n in h`; `pyTruthyStr` and
`pyTruthyRat` are Python truthiness on an optional string / number
(`None` and `""` / `0` are falsy); `rstripSlashes` is `s.rstrip("/")`.
-/

/-- Does `n` occur as a contiguous sublist of `h`? -/
def containsSub (n : List Char) : List Char → Bool
  | [] => n.isEmpty
  | c :: t => n.isPrefixOf (c :: t) || containsSub n t

def pyIn (needle haystack : String) : Bool :=
  containsSub needle.toList haystack.toList

def pyTruthyStr : Option String → Bool
  | none => false
  | some s => !s.toList.isEmpty

def pyTruthyRat : Option Rat → Bool
  | none => false
  | some r => decide (r ≠ 0)

def rstripSlashes (s : String) : String :=
  String.mk (s.toList.reverse.dropWhile (fun c => c = '/')).reverse

/-- The single-quote character, used in the validator's issue messages. -/
def squote : String := String.mk [Char.ofNat 39]

/-- ASCII lower-casing of one character, as `str.lower` does on the
ASCII range relevant here. -/
def charLower (c : Char) : Char :=
  if 65 ≤ c.toNat ∧ c.toNat ≤ 90 then Char.ofNat (c.toNat + 32) else c

def strLower (s : String) : String := String.mk (s.toList.map charLower)

def strStartsWith (s p : String) : Bool := p.toList.isPrefixOf s.toList

def strEndsWith (s p : String) : Bool := p.toList.reverse.isPrefixOf s.toList.reverse

def strDrop (s : String) (n : Nat) : String := String.mk (s.toList.drop n)

def splitCharAux (sep : Char) : List Char → List (List Char)
  | [] => [[]]
  | c :: t =>
    if c = sep then [] :: splitCharAux sep t
    else
      match splitCharAux sep t with
      | [] => [[c]]
      | h :: rest => (c :: h) :: rest

/-- Python's `s.split(sep)` for a one-character separator. -/
def pySplit (sep : Char) (s : String) : List String :=
  (splitCharAux sep s.toList).map String.mk

/-! ### URL normalization and domain extraction (`app/main.py`) -/

/-- `normalize_url`: default the scheme to `https://`, strip trailing
slashes (Python's `rstrip("/")` removes every trailing slash). -/
def normalize_url (url : String) : String :=
  let url := if !(strStartsWith url "http://") && !(strStartsWith url "https://")
    then "https://" ++ url else url
  rstripSlashes url

/-- The `netloc` of `urlparse` on a normalized URL: the text after the
scheme marker up to the first `/`, `?` or `#`; empty when no scheme
marker is present (as `urlparse` returns for a scheme-less string). -/
def netlocOf (s : String) : String :=
  let rest :=
    if strStartsWith s "https://" then strDrop s 8
    else if strStartsWith s "http://" then strDrop s 7
    else ""
  String.mk (rest.toList.takeWhile (fun c => c != '/' && c != '?' && c != '#'))

/-- `extract_domain`: lower-cased host of the normalized URL with a
leading `www.` removed. -/
def extract_domain (url : String) : String :=
  let domain := strLower (netlocOf (normalize_url url))
  if strStartsWith domain "www." then strDrop domain 4 else domain

/-- The fixed generic-provider list from `validate_email_domain`. -/
def generic_providers : List String :=
  ["gmail.com", "yahoo.com", "outlook.com", "hotmail.com",
   "aol.com", "icloud.com", "protonmail.com", "mail.com"]

/-- `validate_email_domain(email, url) -> (is_valid, needs_manual_review)`.
Python's `email.split("@")[1]` is element 1 of the split (the source
only receives pydantic-validated emails, which contain `@`). -/
def validate_email_domain (email url : String) : Bool × Bool :=
  let email_domain := strLower ((pySplit '@' email).getD 1 "")
  let url_domain := extract_domain url
  if email_domain ∈ generic_providers then (true, true)
  else if email_domain = url_domain then (true, false)
  else if strEndsWith email_domain ("." ++ url_domain) then (true, false)
  else if strEndsWith url_domain ("." ++ email_domain) then (true, false)
  else (false, false)

/-- Modelled from the claim's wording for the domain validator (used
only to compare with `validate_email_domain`): generic provider ⇒
(valid, review); otherwise valid without review iff the domains are
equal or either is a (dot-separated) strict subdomain of the other;
else invalid. -/
def spec_validate_email_domain (email url : String) : Bool × Bool :=
  let email_domain := strLower ((pySplit '@' email).getD 1 "")
  let url_domain := extract_domain url
  if email_domain ∈ generic_providers then (true, true)
  else if email_domain = url_domain
      ∨ strEndsWith email_domain ("." ++ url_domain) = true
      ∨ strEndsWith url_domain ("." ++ email_domain) = true then (true, false)
  else (false, false)

/-! ### Rate limiter (`check_rate_limit` in `app/main.py`)

Redis state for one IP key is `Option RateState`: a counter plus an
absolute expiry instant (set by `EXPIRE key 3600`).  `redisGet` returns
the counter while the key is alive, `none` once the TTL has elapsed.
-/

structure RateState where
  count : Nat
  expiry : Nat
deriving DecidableEq, Repr

def redisGet (now : Nat) : Option RateState → Option Nat
  | none => none
  | some st => if now < st.expiry then some st.count else none

/-- `check_rate_limit` against a live store: reject (state unchanged)
when the stored count is ≥ 10, otherwise `INCR` + `EXPIRE key 3600`
(an `INCR` on an expired or absent key restarts the counter at 1). -/
def check_rate_limit (now : Nat) (v : Option RateState) : Bool × Option RateState :=
  match redisGet now v with
  | some c =>
    if 10 ≤ c then (false, v)
    else (true, some ⟨c + 1, now + 3600⟩)
  | none => (true, some ⟨1, now + 3600⟩)

/-- The backing store as the orchestrator sees it: missing client,
erroring client, or a live store. -/
inductive RedisConn where
  | absent
  | failing
  | live (v : Option RateState)
deriving DecidableEq

/-- `check_rate_limit` including the fail-open paths: no client ⇒ allow,
any backing-store error ⇒ allow. -/
def check_rate_limit_conn (now : Nat) : RedisConn → Bool × RedisConn
  | .absent => (true, .absent)
  | .failing => (true, .failing)
  | .live v =>
    let r := check_rate_limit now v
    (r.1, .live r.2)

/-- State of one IP key after `k` consecutive checks, all at time `now`,
starting from an absent key. -/
def stateAfterChecks (now : Nat) : Nat → Option RateState
  | 0 => none
  | k + 1 => (check_rate_limit now (stateAfterChecks now k)).2

/-- Result of the `k`-th check (1-indexed) in that same sequence. -/
def nthCheck (now : Nat) (k : Nat) : Bool :=
  (check_rate_limit now (stateAfterChecks now (k - 1))).1

/-! ### Job status (`SubmissionStatus` in `app/schemas.py`) -/

inductive SubmissionStatus where
  | queued
  | processing
  | complete
  | failed
  | manual_review
  | insufficient_data
deriving DecidableEq, Repr

/-! ### Provider entries (the dict values in `worker_data`)

Each entry keeps exactly the keys the orchestrator reads from it
(`success`, `error`, and the payload fields probed by
`check_data_sufficiency` / `validate_profile`); a missing key reads as
its Python `.get` default (`[]`, `None`, `0`), so the exception-failure
dict `{"success": False, "error": msg}` is the entry with those
defaults.  The technology detector's `detected` list of
`{"name", "confidence", "evidence"}` dicts is kept as its list of
names, the only component the orchestrator reads.
-/

structure SiteEntry where
  success : Bool
  error : Option String
deriving DecidableEq, Repr

structure TechEntry where
  success : Bool
  error : Option String
  detected : List String
deriving DecidableEq, Repr

structure DnsEntry where
  success : Bool
  error : Option String
  mx_records : List String
  registrar : Option String
deriving DecidableEq, Repr

structure GbEntry where
  success : Bool
  error : Option String
  rating : Option Rat
deriving DecidableEq, Repr

structure JobEntry where
  success : Bool
  error : Option String
  total_positions : Nat
deriving DecidableEq, Repr

/-- The aggregated dataset: the five-key `worker_data` dict built in
`process_submission`. -/
structure WorkerData where
  site_scraper : SiteEntry
  tech_detector : TechEntry
  dns_whois : DnsEntry
  google_business : GbEntry
  job_scanner : JobEntry
deriving DecidableEq, Repr

/-! ### The five provider calls (`app/workers/`)

Every worker wraps its whole body in exception handlers and returns a
result dict, so the coroutine handed to `asyncio.gather` finishes
normally; the constructors below enumerate the outcome classes each
worker's handlers distinguish, and the functions build the entry the
worker returns for each.  Payload fields not read by the orchestrator
are omitted.
-/

inductive SiteScraperCall where
  | ok
  | timeout
  | httpError (code : Nat)
  | exc (msg : String)
deriving DecidableEq, Repr

def scrape_site : SiteScraperCall → SiteEntry
  | .ok => ⟨true, none⟩
  | .timeout => ⟨false, some "Timeout - site took too long to respond"⟩
  | .httpError code => ⟨false, some ("HTTP error: " ++ toString code)⟩
  | .exc msg => ⟨false, some ("Error scraping site: " ++ msg)⟩

inductive TechDetectorCall where
  | ok (detected : List String)
  | timeout
  | httpError (code : Nat)
  | exc (msg : String)
deriving DecidableEq, Repr

def detect_technologies : TechDetectorCall → TechEntry
  | .ok detected => ⟨true, none, detected⟩
  | .timeout => ⟨false, some "Timeout - site took too long to respond", []⟩
  | .httpError code => ⟨false, some ("HTTP error: " ++ toString code), []⟩
  | .exc msg => ⟨false, some ("Error detecting technologies: " ++ msg), []⟩

/-- The DNS/WHOIS worker's `success = bool(dns or whois)` is true on
every non-raising path (both sub-dicts are non-empty even when a lookup
times out), so its only failure outcome is the outer exception
handler. -/
inductive DnsWhoisCall where
  | ok (mx_records : List String) (registrar : Option String)
  | exc (msg : String)
deriving DecidableEq, Repr

def lookup_dns_whois : DnsWhoisCall → DnsEntry
  | .ok mx registrar => ⟨true, none, mx, registrar⟩
  | .exc msg => ⟨false, some ("Error in DNS/WHOIS lookup: " ++ msg), [], none⟩

/-- `noResults` carries the upstream `status` field when present
(`search_data.get('status', 'Unknown error')`). -/
inductive GoogleBusinessCall where
  | noKey
  | noResults (status : Option String)
  | ok (rating : Option Rat)
  | timeout
  | exc (msg : String)
deriving DecidableEq, Repr

def fetch_google_business : GoogleBusinessCall → GbEntry
  | .noKey => ⟨false, some "Google Places API key not configured", none⟩
  | .noResults status =>
    ⟨false, some ("No results found: " ++ status.getD "Unknown error"), none⟩
  | .ok rating => ⟨true, none, rating⟩
  | .timeout => ⟨false, some "Timeout - Google Places API took too long to respond", none⟩
  | .exc msg => ⟨false, some ("Error fetching Google Business data: " ++ msg), none⟩

/-- The decoded upstream response of the job-posting search: the
optional top-level `error` field and the length of `jobs_results`. -/
structure JobsResponse where
  errorField : Option String
  jobsCount : Nat
deriving DecidableEq, Repr

inductive JobScannerCall where
  | noKey
  | timeout
  | exc (msg : String)
  | response (r : JobsResponse)
deriving DecidableEq, Repr

def scan_job_postings : JobScannerCall → JobEntry
  | .noKey => ⟨false, some "SerpAPI key not configured - skipping job scan", 0⟩
  | .timeout => ⟨false, some "Timeout - job search took too long", 0⟩
  | .exc msg => ⟨false, some ("Error scanning job postings: " ++ msg), 0⟩
  | .response r =>
    match r.errorField with
    | some e => ⟨false, some e, 0⟩
    | none =>
      if r.jobsCount = 0 then ⟨true, some "No job postings found", 0⟩
      else ⟨true, none, r.jobsCount⟩

/-! ### Fan-out aggregation (`process_submission`, `app/main.py` 197-214)

`asyncio.gather(..., return_exceptions=True)` delivers, per provider,
either the worker's dict or an escaped exception; the dict literal at
lines 208-214 maps an exception `e` to
`{"success": False, "error": str(e)}` and keeps a dict as is.
-/

def organizeSite : Except String SiteEntry → SiteEntry
  | .ok d => d
  | .error msg => ⟨false, some msg⟩

def organizeTech : Except String TechEntry → TechEntry
  | .ok d => d
  | .error msg => ⟨false, some msg, []⟩

def organizeDns : Except String DnsEntry → DnsEntry
  | .ok d => d
  | .error msg => ⟨false, some msg, [], none⟩

def organizeGb : Except String GbEntry → GbEntry
  | .ok d => d
  | .error msg => ⟨false, some msg, none⟩

def organizeJob : Except String JobEntry → JobEntry
  | .ok d => d
  | .error msg => ⟨false, some msg, 0⟩

def organize_results (r1 : Except String SiteEntry) (r2 : Except String TechEntry)
    (r3 : Except String DnsEntry) (r4 : Except String GbEntry)
    (r5 : Except String JobEntry) : WorkerData :=
  ⟨organizeSite r1, organizeTech r2, organizeDns r3, organizeGb r4, organizeJob r5⟩

/-- The `worker_data` dict as a keyed list in insertion order,
projecting each entry to the fields the fan-out claims speak about. -/
def entriesOf (wd : WorkerData) : List (String × Bool × Option String) :=
  [("site_scraper", wd.site_scraper.success, wd.site_scraper.error),
   ("tech_detector", wd.tech_detector.success, wd.tech_detector.error),
   ("dns_whois", wd.dns_whois.success, wd.dns_whois.error),
   ("google_business", wd.google_business.success, wd.google_business.error),
   ("job_scanner", wd.job_scanner.success, wd.job_scanner.error)]

/-- One full fan-out: the five workers run (none of them raises, so each
gather slot is `.ok` of the worker's dict) and the results are
organized into `worker_data`. -/
def fan_out (c1 : SiteScraperCall) (c2 : TechDetectorCall) (c3 : DnsWhoisCall)
    (c4 : GoogleBusinessCall) (c5 : JobScannerCall) : WorkerData :=
  organize_results (.ok (scrape_site c1)) (.ok (detect_technologies c2))
    (.ok (lookup_dns_whois c3)) (.ok (fetch_google_business c4))
    (.ok (scan_job_postings c5))

/-! ### Sufficiency scorer (`check_data_sufficiency`,
`app/services/anthropic_service.py` 186-231) -/

/-- `check_data_sufficiency(worker_data) -> (is_sufficient, sources)`.
The source appends to `available_sources` and adds to
`critical_sources` signal by signal, in a fixed order; here the two
accumulations are written as one ordered concatenation and one sum
over the same conditions in the same order.  Sufficient iff the score
reaches 3. -/
def check_data_sufficiency (wd : WorkerData) : Bool × List String :=
  let available_sources :=
    (if wd.site_scraper.success then ["Website Content"] else [])
    ++ (if wd.tech_detector.success then
          (if wd.tech_detector.detected ≠ [] then ["Technology Stack"] else [])
        else [])
    ++ (if wd.dns_whois.success then
          (if wd.dns_whois.mx_records ≠ [] then ["DNS Records"] else [])
          ++ (if pyTruthyStr wd.dns_whois.registrar then ["Domain WHOIS"] else [])
        else [])
    ++ (if wd.google_business.success then
          (if pyTruthyRat wd.google_business.rating then ["Google Business Profile"] else [])
        else [])
    ++ (if wd.job_scanner.success then
          (if 0 < wd.job_scanner.total_positions then ["Job Postings"] else [])
        else [])
  let critical_sources :=
    (if wd.site_scraper.success then 2 else 0)
    + (if wd.tech_detector.success then
        (if wd.tech_detector.detected ≠ [] then 1 else 0) else 0)
    + (if wd.dns_whois.success then
        (if wd.dns_whois.mx_records ≠ [] then 1 else 0)
        + (if pyTruthyStr wd.dns_whois.registrar then 1 else 0) else 0)
    + (if wd.google_business.success then
        (if pyTruthyRat wd.google_business.rating then 1 else 0) else 0)
  (decide (3 ≤ critical_sources), available_sources)

/-- The weight table as the claim states it: site-scraper success = 2;
non-empty detected-technology list, MX records present, registrar
known, rating present = 1 each; job postings contribute nothing. -/
def claimWeight (wd : WorkerData) : Nat :=
  (if wd.site_scraper.success then 2 else 0)
  + (if wd.tech_detector.success ∧ wd.tech_detector.detected ≠ [] then 1 else 0)
  + (if wd.dns_whois.success ∧ wd.dns_whois.mx_records ≠ [] then 1 else 0)
  + (if wd.dns_whois.success ∧ pyTruthyStr wd.dns_whois.registrar then 1 else 0)
  + (if wd.google_business.success ∧ pyTruthyRat wd.google_business.rating then 1 else 0)

/-! ### Parsed profiles and the anti-fabrication validator
(`validate_profile`, `app/services/anthropic_service.py` 57-93)

A parsed profile dict is kept as the three components the orchestrator
reads: the `detected_technologies` list when `operational_snapshot` is
present, the `public_reputation` string when `market_position` is
present (a present dict with the key missing reads as `""`), and
`data_confidence.overall_score` when present (missing reads as
`"Medium"` at the storage site).
-/

structure ProfileDict where
  detected_technologies : Option (List String)
  public_reputation : Option String
  overall_score : Option String
deriving DecidableEq, Repr

/-- `validate_profile(profile, worker_data) -> (is_valid, issues)`.
The technology check runs only when the snapshot section is present and
the tech detector succeeded; the reputation check's first branch (a
matching-rating "soft check") is a `pass` in the source, so only the
`elif` on a non-successful reputation provider can add an issue. -/
def validate_profile (p : ProfileDict) (wd : WorkerData) : Bool × List String :=
  let techIssues : List String :=
    match p.detected_technologies with
    | none => []
    | some techs =>
      if wd.tech_detector.success then
        (techs.filter (fun t => !(wd.tech_detector.detected.contains t))).map
          (fun t => "Technology " ++ squote ++ t ++ squote ++ " not found in detector output")
      else []
  let repIssues : List String :=
    match p.public_reputation with
    | none => []
    | some reputation =>
      if wd.google_business.success then []
      else if pyIn "stars" (strLower reputation) || pyIn "rating" (strLower reputation) then
        (if !(pyIn "no data" (strLower reputation)) && !(pyIn "unavailable" (strLower reputation)) then
          ["Profile claims review data but Google Business data was unavailable"]
        else [])
      else []
  let issues := techIssues ++ repIssues
  (issues.isEmpty, issues)

/-! ### Profile synthesis with retry (`generate_profile`,
`app/services/anthropic_service.py` 96-183)

One attempt against the upstream API ends in one of the outcomes below;
`.ok` carries the profile parsed from the response text.  The loop runs
`max_retries` attempts, sleeping `delays[attempt]` between attempts and
never after the last one.
-/

inductive SynthOutcome where
  | ok (p : ProfileDict)
  | rateLimited
  | apiError (msg : String)
  | parseError (msg : String)
  | otherError (msg : String)
deriving DecidableEq, Repr

def SynthOutcome.isOk : SynthOutcome → Bool
  | .ok _ => true
  | _ => false

/-- The failure kinds the claim calls transient: upstream rate limit,
upstream API error, JSON parse error. -/
def SynthOutcome.isTransient : SynthOutcome → Bool
  | .rateLimited => true
  | .apiError _ => true
  | .parseError _ => true
  | _ => false

/-- The message each handler returns once retries are exhausted. -/
def SynthOutcome.failureMsg : SynthOutcome → String
  | .ok _ => ""
  | .rateLimited => "Rate limited by Anthropic API after retries"
  | .apiError msg => "Anthropic API error: " ++ msg
  | .parseError msg => "Failed to parse profile JSON: " ++ msg
  | .otherError msg => "Error generating profile: " ++ msg

def delays : List Nat := [1, 4, 16]

/-- Result of `generate_profile`: the returned pair, plus the attempt
count and the backoff sleeps actually performed (observables the spec
talks about).  A returned profile carries `some issues` exactly when
the validator rejected it and the issues were attached under
`_validation_issues`. -/
structure GenResult where
  profile : Option (ProfileDict × Option (List String))
  error : Option String
  attemptsMade : Nat
  sleeps : List Nat
deriving DecidableEq, Repr

/-- The `for attempt in range(max_retries)` loop from attempt index
`attempt` on; the first argument is the number of remaining iterations
(`maxRetries - attempt`), which only drives the recursion.  On success
the parsed profile is validated and returned with `error = None`; on
failure the handler sleeps `delays[attempt]` and continues unless this
was the last attempt, in which case it returns `(None, failureMsg)`.
The fall-through return after the loop is reachable only when no
attempt runs at all. -/
def attemptLoop (wd : WorkerData) (outcomes : Nat → SynthOutcome)
    (maxRetries : Nat) : Nat → Nat → GenResult
  | 0, _ => ⟨none, some "Failed to generate profile after all retries", 0, []⟩
  | remaining + 1, attempt =>
    match outcomes attempt with
    | .ok p =>
      let v := validate_profile p wd
      ⟨some (p, if v.1 then none else some v.2), none, 1, []⟩
    | o =>
      if attempt < maxRetries - 1 then
        let rest := attemptLoop wd outcomes maxRetries remaining (attempt + 1)
        ⟨rest.profile, rest.error, rest.attemptsMade + 1, delays.getD attempt 0 :: rest.sleeps⟩
      else
        ⟨none, some o.failureMsg, 1, []⟩

/-- `generate_profile(company, worker_data, max_retries)`: an
unconfigured API key short-circuits before any attempt. -/
def generate_profile (apiKey : String) (wd : WorkerData)
    (outcomes : Nat → SynthOutcome) (maxRetries : Nat) : GenResult :=
  if apiKey = "" then ⟨none, some "Anthropic API key not configured", 0, []⟩
  else attemptLoop wd outcomes maxRetries maxRetries 0

/-! ### Intake (`submit_intake`, `app/main.py` 270-335) -/

inductive IntakeOutcome where
  | rateLimited
  | invalidEmail
  | dbError
  | accepted (status : SubmissionStatus)
deriving DecidableEq, Repr

/-- The intake handler's decision sequence, in source order: rate limit
first (HTTP 429), then email-domain validation (HTTP 400), then
submission creation (HTTP 500 on failure), with the initial status
`manual_review` when the validator asked for review, else `queued`. -/
def submit_intake (now : Nat) (conn : RedisConn) (email url : String)
    (dbOk : Bool) : IntakeOutcome :=
  if (check_rate_limit_conn now conn).1 = false then .rateLimited
  else
    let v := validate_email_domain email url
    if v.1 = false then .invalidEmail
    else if dbOk = false then .dbError
    else .accepted (if v.2 then .manual_review else .queued)

/-! ### Repository rows and queries (`app/database.py`) -/

structure SubmissionRow where
  id : Nat
  company_url : String
  job_id : String
  status : SubmissionStatus
  created_at : Nat
deriving DecidableEq, Repr

/-- A stored profile payload: the profile dict together with the
attached `_validation_issues`, when any. -/
def StoredProfile := ProfileDict × Option (List String)
deriving DecidableEq, Repr

structure ProfileRow where
  submission_id : Nat
  profile_json : StoredProfile
  data_sources_used : List String
  confidence_score : String
deriving DecidableEq, Repr

structure Db where
  submissions : List SubmissionRow
  profiles : List ProfileRow
deriving Repr

/-- `ORDER BY created_at DESC LIMIT 1` over an unordered row set: the
row with the greatest `created_at` (ties broken arbitrarily). -/
def pickLatest : List SubmissionRow → Option SubmissionRow
  | [] => none
  | s :: rest =>
    match pickLatest rest with
    | none => some s
    | some b => if s.created_at < b.created_at then some b else some s

/-- `get_submission_by_url`: the most recent row with this URL, status
`complete`, created within the last 24 hours (86400 seconds). -/
def get_submission_by_url (db : Db) (now : Nat) (url : String) : Option SubmissionRow :=
  pickLatest (db.submissions.filter
    (fun s => decide (s.company_url = url ∧ s.status = SubmissionStatus.complete
      ∧ now < s.created_at + 86400)))

def get_profile_by_submission_id (db : Db) (sid : Nat) : Option ProfileRow :=
  db.profiles.find? (fun p => decide (p.submission_id = sid))

def get_submission_by_job_id (db : Db) (jid : String) : Option SubmissionRow :=
  db.submissions.find? (fun s => decide (s.job_id = jid))

/-! ### The background pipeline (`process_submission`, `app/main.py`
168-261) -/

/-- Observable outcome of one pipeline run: the terminal status it sets,
the profile row it stores (if any), and whether the provider fan-out or
the synthesis call was ever reached. -/
structure PipelineResult where
  finalStatus : SubmissionStatus
  storedProfile : Option ProfileRow
  providersInvoked : Bool
  synthesisInvoked : Bool
deriving DecidableEq, Repr

/-- The pipeline from the fan-out on (the code path taken whenever the
cache lookup does not short-circuit): score the aggregated data, stop
with `insufficient_data`, or synthesize and either fail or store the
profile with the confidence read from `data_confidence.overall_score`
(default `"Medium"`) and reach `complete`. -/
def fanOutStage (db : Db) (jobId : String) (wd : WorkerData) (apiKey : String)
    (outcomes : Nat → SynthOutcome) : PipelineResult :=
  let suff := check_data_sufficiency wd
  if suff.1 = false then ⟨.insufficient_data, none, true, false⟩
  else
    let gen := generate_profile apiKey wd outcomes 3
    match gen.profile, gen.error with
    | some p, none =>
      (match get_submission_by_job_id db jobId with
       | some current =>
         ⟨.complete, some ⟨current.id, p, suff.2, p.1.overall_score.getD "Medium"⟩, true, true⟩
       | none => ⟨.complete, none, true, true⟩)
    | _, _ => ⟨.failed, none, true, true⟩

/-- `process_submission`: normalize the URL, try the 24-hour cache
(a hit on a complete prior submission with a stored profile clones that
profile onto the current submission and completes immediately), and
otherwise run the fan-out stage. -/
def process_submission (db : Db) (now : Nat) (jobId : String) (companyUrl : String)
    (wd : WorkerData) (apiKey : String) (outcomes : Nat → SynthOutcome) : PipelineResult :=
  let url := normalize_url companyUrl
  match get_submission_by_url db now url with
  | some cached =>
    if cached.status = SubmissionStatus.complete then
      match get_profile_by_submission_id db cached.id with
      | some cachedProfile =>
        (match get_submission_by_job_id db jobId with
         | some current =>
           ⟨.complete,
            some ⟨current.id, cachedProfile.profile_json, cachedProfile.data_sources_used,
                  cachedProfile.confidence_score⟩,
            false, false⟩
         | none => fanOutStage db jobId wd apiKey outcomes)
      | none => fanOutStage db jobId wd apiKey outcomes
    else fanOutStage db jobId wd apiKey outcomes
  | none => fanOutStage db jobId wd apiKey outcomes

/-! ## Helper lemmas -/

theorem strAppend_ne_empty (a b : String) (h : a.data ≠ []) : a ++ b ≠ "" := by
  intro heq
  apply h
  have h2 : (a ++ b).data = ([] : List Char) := by rw [heq]
  simp at h2
  exact h2.1

/-- A rejected rate-limit check leaves the stored state untouched. -/
theorem check_rate_limit_rejected_state (now : Nat) (v : Option RateState)
    (h : (check_rate_limit now v).1 = false) : (check_rate_limit now v).2 = v := by
  unfold check_rate_limit at *
  cases hg : redisGet now v with
  | none => simp [hg] at h
  | some c =>
    by_cases hc : 10 ≤ c
    · simp [hg, hc]
    · simp [hg, hc] at h

/-- After `k ≤ 10` checks at time `now` from an absent key, the key
holds count `k` expiring at `now + 3600`. -/
theorem stateAfterChecks_le_ten (now : Nat) (k : Nat) (hk : k ≤ 10) :
    stateAfterChecks now k = if k = 0 then none else some ⟨k, now + 3600⟩ := by
  induction k with
  | zero => rfl
  | succ n ih =>
    have hn : n ≤ 10 := by omega
    rw [stateAfterChecks, ih hn]
    by_cases h0 : n = 0
    · subst h0
      simp [check_rate_limit, redisGet]
    · have hlt : ¬ (10 ≤ n) := by omega
      simp [h0, check_rate_limit, redisGet, hlt]

theorem isTransient_not_ok (o : SynthOutcome) (h : o.isTransient = true) :
    o.isOk = false := by
  cases o <;> simp_all [SynthOutcome.isTransient, SynthOutcome.isOk]

theorem transient_failureMsg_ne_empty (o : SynthOutcome) (h : o.isTransient = true) :
    o.failureMsg ≠ "" := by
  cases o with
  | ok p => simp [SynthOutcome.isTransient] at h
  | otherError m => simp [SynthOutcome.isTransient] at h
  | rateLimited => decide
  | apiError m => exact strAppend_ne_empty _ _ (by decide)
  | parseError m => exact strAppend_ne_empty _ _ (by decide)

/-- Unfolding: a non-`ok` attempt that is not the last one sleeps
`delays[attempt]` and defers to the next attempt. -/
theorem attemptLoop_not_ok_retry (wd : WorkerData) (outcomes : Nat → SynthOutcome)
    (maxRetries remaining attempt : Nat)
    (hok : (outcomes attempt).isOk = false) (hlt : attempt < maxRetries - 1) :
    attemptLoop wd outcomes maxRetries (remaining + 1) attempt
      = ⟨(attemptLoop wd outcomes maxRetries remaining (attempt + 1)).profile,
         (attemptLoop wd outcomes maxRetries remaining (attempt + 1)).error,
         (attemptLoop wd outcomes maxRetries remaining (attempt + 1)).attemptsMade + 1,
         delays.getD attempt 0
           :: (attemptLoop wd outcomes maxRetries remaining (attempt + 1)).sleeps⟩ := by
  cases ho : outcomes attempt with
  | ok p => rw [ho] at hok; simp [SynthOutcome.isOk] at hok
  | rateLimited => simp [attemptLoop, ho, hlt]
  | apiError m => simp [attemptLoop, ho, hlt]
  | parseError m => simp [attemptLoop, ho, hlt]
  | otherError m => simp [attemptLoop, ho, hlt]

/-- Unfolding: a non-`ok` last attempt returns the handler's message
with no further sleep. -/
theorem attemptLoop_not_ok_last (wd : WorkerData) (outcomes : Nat → SynthOutcome)
    (maxRetries remaining attempt : Nat)
    (hok : (outcomes attempt).isOk = false) (hnlt : ¬ attempt < maxRetries - 1) :
    attemptLoop wd outcomes maxRetries (remaining + 1) attempt
      = ⟨none, some (outcomes attempt).failureMsg, 1, []⟩ := by
  cases ho : outcomes attempt with
  | ok p => rw [ho] at hok; simp [SynthOutcome.isOk] at hok
  | rateLimited => simp [attemptLoop, ho, hnlt]
  | apiError m => simp [attemptLoop, ho, hnlt]
  | parseError m => simp [attemptLoop, ho, hnlt]
  | otherError m => simp [attemptLoop, ho, hnlt]

/-- Unfolding: a successful attempt returns the validated profile. -/
theorem attemptLoop_ok (wd : WorkerData) (outcomes : Nat → SynthOutcome)
    (maxRetries remaining attempt : Nat) (p : ProfileDict)
    (ho : outcomes attempt = .ok p) :
    attemptLoop wd outcomes maxRetries (remaining + 1) attempt
      = ⟨some (p, if (validate_profile p wd).1 then none
                  else some (validate_profile p wd).2), none, 1, []⟩ := by
  simp [attemptLoop, ho]

/-- `validate_profile`'s validity flag is just emptiness of its issue
list. -/
theorem validate_profile_fst (p : ProfileDict) (wd : WorkerData) :
    (validate_profile p wd).1 = (validate_profile p wd).2.isEmpty := rfl

theorem site_fail_msg (c : SiteScraperCall) (h : (scrape_site c).success = false) :
    ∃ msg, (scrape_site c).error = some msg ∧ msg ≠ "" := by
  cases c with
  | ok => simp [scrape_site] at h
  | timeout => exact ⟨_, rfl, by decide⟩
  | httpError code => exact ⟨_, rfl, strAppend_ne_empty _ _ (by decide)⟩
  | exc m => exact ⟨_, rfl, strAppend_ne_empty _ _ (by decide)⟩

theorem tech_fail_msg (c : TechDetectorCall) (h : (detect_technologies c).success = false) :
    ∃ msg, (detect_technologies c).error = some msg ∧ msg ≠ "" := by
  cases c with
  | ok d => simp [detect_technologies] at h
  | timeout => exact ⟨_, rfl, by decide⟩
  | httpError code => exact ⟨_, rfl, strAppend_ne_empty _ _ (by decide)⟩
  | exc m => exact ⟨_, rfl, strAppend_ne_empty _ _ (by decide)⟩

theorem dns_fail_msg (c : DnsWhoisCall) (h : (lookup_dns_whois c).success = false) :
    ∃ msg, (lookup_dns_whois c).error = some msg ∧ msg ≠ "" := by
  cases c with
  | ok mx reg => simp [lookup_dns_whois] at h
  | exc m => exact ⟨_, rfl, strAppend_ne_empty _ _ (by decide)⟩

theorem gb_fail_msg (c : GoogleBusinessCall) (h : (fetch_google_business c).success = false) :
    ∃ msg, (fetch_google_business c).error = some msg ∧ msg ≠ "" := by
  cases c with
  | noKey => exact ⟨_, rfl, by decide⟩
  | noResults status => exact ⟨_, rfl, strAppend_ne_empty _ _ (by decide)⟩
  | ok rating => simp [fetch_google_business] at h
  | timeout => exact ⟨_, rfl, by decide⟩
  | exc m => exact ⟨_, rfl, strAppend_ne_empty _ _ (by decide)⟩

theorem job_fail_msg (c : JobScannerCall) (h : (scan_job_postings c).success = false) :
    ∃ msg, (scan_job_postings c).error = some msg
      ∧ (msg ≠ "" ∨ ∃ r : JobsResponse, c = .response r ∧ r.errorField = some msg) := by
  cases c with
  | noKey => exact ⟨_, rfl, Or.inl (by decide)⟩
  | timeout => exact ⟨_, rfl, Or.inl (by decide)⟩
  | exc m => exact ⟨_, rfl, Or.inl (strAppend_ne_empty _ _ (by decide))⟩
  | response r =>
    cases hr : r.errorField with
    | some e =>
      refine ⟨e, ?_, Or.inr ⟨r, rfl, hr⟩⟩
      simp [scan_job_postings, hr]
    | none =>
      by_cases hj : r.jobsCount = 0 <;> simp [scan_job_postings, hr, hj] at h

theorem pickLatest_mem : ∀ {l : List SubmissionRow} {s : SubmissionRow},
    pickLatest l = some s → s ∈ l := by
  intro l
  induction l with
  | nil => intro s h; simp [pickLatest] at h
  | cons a t ih =>
    intro s h
    rw [pickLatest] at h
    cases h2 : pickLatest t with
    | none =>
      rw [h2] at h
      have h3 : some a = some s := h
      cases h3
      exact List.mem_cons_self a t
    | some b =>
      rw [h2] at h
      have h3 : (if a.created_at < b.created_at then some b else some a) = some s := h
      by_cases hcmp : a.created_at < b.created_at
      · rw [if_pos hcmp] at h3
        cases h3
        exact List.mem_cons_of_mem a (ih h2)
      · rw [if_neg hcmp] at h3
        cases h3
        exact List.mem_cons_self a t

/-- Rows returned by the URL cache lookup match the query's filter: same
URL, status `complete`, created within the 24-hour window. -/
theorem get_submission_by_url_spec (db : Db) (now : Nat) (url : String)
    (s : SubmissionRow) (h : get_submission_by_url db now url = some s) :
    s.company_url = url ∧ s.status = SubmissionStatus.complete
      ∧ now < s.created_at + 86400 := by
  have hmem := pickLatest_mem h
  rw [List.mem_filter] at hmem
  exact of_decide_eq_true hmem.2

/-! ## Claims -/

set_option maxHeartbeats 3200000 in
/-- C1.  `check_data_sufficiency` is sufficient exactly when the
accumulated weight reaches 3, where the weights over signals actually
present are: site-scraper success = 2, non-empty detected-technology
list = 1, MX records present = 1, registrar known = 1, rating present
= 1; a positive job-posting count adds `"Job Postings"` to the source
list but contributes nothing to the weight. -/
theorem sufficiency_matches_weight_table (wd : WorkerData) :
    ((check_data_sufficiency wd).1 = true ↔ 3 ≤ claimWeight wd)
    ∧ (("Job Postings" ∈ (check_data_sufficiency wd).2)
        ↔ (wd.job_scanner.success = true ∧ 0 < wd.job_scanner.total_positions)) := by
  obtain ⟨⟨s1, e1⟩, ⟨s2, e2, det⟩, ⟨s3, e3, mx, reg⟩, ⟨s4, e4, rat⟩, ⟨s5, e5, pos⟩⟩ := wd
  simp only [check_data_sufficiency, claimWeight, decide_eq_true_eq]
  cases s1 <;> cases s2 <;> cases s3 <;> cases s4 <;> cases s5 <;>
    by_cases hdet : det = [] <;> by_cases hmx : mx = [] <;>
    by_cases hreg : pyTruthyStr reg = true <;>
    by_cases hrat : pyTruthyRat rat = true <;>
    by_cases hpos : 0 < pos <;>
    simp_all

/-- C2.  The claim (and the source's own comment, "Need at least 3
points (e.g., site scraper alone, ...)", with the spec's "a single
strong content source alone can qualify") says a successful site scrape
with no other scored signal is sufficient; the code gives the site
scraper weight 2 against a threshold of 3, so this dataset is scored
NOT sufficient: the code contradicts its own documentation. -/
theorem site_scraper_alone_scored_insufficient :
    check_data_sufficiency
      ⟨⟨true, none⟩, ⟨false, some "tech detector failed", []⟩,
       ⟨false, some "dns lookup failed", [], none⟩,
       ⟨false, some "google business failed", none⟩,
       ⟨false, some "job scan failed", 0⟩⟩
    = (false, ["Website Content"]) := by decide

/-- C8.  From a live store the 10th consecutive check for an IP is
allowed and the 11th rejected; a rejected check does not change the
stored counter; an absent or erroring backing store makes the check
allow (fail-open). -/
theorem rate_limit_tenth_allowed_eleventh_rejected (now : Nat) :
    nthCheck now 10 = true ∧ nthCheck now 11 = false
    ∧ (∀ v : Option RateState,
        (check_rate_limit now v).1 = false → (check_rate_limit now v).2 = v)
    ∧ (check_rate_limit_conn now .absent).1 = true
    ∧ (check_rate_limit_conn now .failing).1 = true := by
  refine ⟨?_, ?_, check_rate_limit_rejected_state now, rfl, rfl⟩
  · show (check_rate_limit now (stateAfterChecks now 9)).1 = true
    rw [stateAfterChecks_le_ten now 9 (by omega)]
    simp [check_rate_limit, redisGet]
  · show (check_rate_limit now (stateAfterChecks now 10)).1 = false
    rw [stateAfterChecks_le_ten now 10 (by omega)]
    simp [check_rate_limit, redisGet]

/-- Witness for C8 at time 0 and a concrete over-limit state. -/
theorem rate_limit_tenth_allowed_eleventh_rejected_witness :
    nthCheck 0 10 = true
    ∧ (check_rate_limit 0 (some ⟨12, 99⟩)).2 = some ⟨12, 99⟩ :=
  ⟨(rate_limit_tenth_allowed_eleventh_rejected 0).1,
   (rate_limit_tenth_allowed_eleventh_rejected 0).2.2.1 (some ⟨12, 99⟩) (by decide)⟩

/-- C10.  An allowed check stores an expiry a full 3600 seconds from
now (the window restarts at the most recent allowed request); a
rejected check changes nothing; an over-limit key rejects strictly
before its expiry instant and allows from that instant on (one hour
after the last allowed request, which set the expiry). -/
theorem allowed_check_resets_expiry (now : Nat) (v : Option RateState) :
    ((check_rate_limit now v).1 = true →
        ∃ c, (check_rate_limit now v).2 = some ⟨c, now + 3600⟩)
    ∧ ((check_rate_limit now v).1 = false → (check_rate_limit now v).2 = v)
    ∧ (∀ c e, 10 ≤ c →
        (now < e → (check_rate_limit now (some ⟨c, e⟩)).1 = false)
        ∧ (e ≤ now → (check_rate_limit now (some ⟨c, e⟩)).1 = true)) := by
  refine ⟨?_, check_rate_limit_rejected_state now v, ?_⟩
  · intro h
    unfold check_rate_limit at *
    cases hg : redisGet now v with
    | none => exact ⟨1, by simp [hg]⟩
    | some c =>
      by_cases hc : 10 ≤ c
      · simp [hg, hc] at h
      · exact ⟨c + 1, by simp [hg, hc]⟩
  · intro c e hc
    refine ⟨fun he => ?_, fun he => ?_⟩
    · simp [check_rate_limit, redisGet, he, hc]
    · have hne : ¬ now < e := by omega
      simp [check_rate_limit, redisGet, hne]

/-- Witness for C10 at a concrete allowed check and a concrete blocked
key examined before and at its expiry. -/
theorem allowed_check_resets_expiry_witness :
    (∃ c, (check_rate_limit 5000 (some ⟨3, 6000⟩)).2 = some ⟨c, 5000 + 3600⟩)
    ∧ (check_rate_limit 5000 (some ⟨10, 6000⟩)).1 = false
    ∧ (check_rate_limit 8600 (some ⟨10, 6000⟩)).1 = true :=
  ⟨(allowed_check_resets_expiry 5000 (some ⟨3, 6000⟩)).1 (by decide),
   ((allowed_check_resets_expiry 5000 (some ⟨10, 6000⟩)).2.2 10 6000 (by decide)).1 (by decide),
   ((allowed_check_resets_expiry 8600 (some ⟨10, 6000⟩)).2.2 10 6000 (by decide)).2 (by decide)⟩

/-- C9.  `validate_email_domain` agrees everywhere with the claim's
description (`spec_validate_email_domain`): generic provider ⇒
(true, true); else equal domains or a strict-subdomain relation in
either direction ⇒ (true, false); else (false, false) — and on the
claim's three examples it returns the stated values, the generic-case
one for every URL. -/
theorem validate_email_domain_matches_spec :
    (∀ email url, validate_email_domain email url = spec_validate_email_domain email url)
    ∧ validate_email_domain "ops@sub.acme.com" "acme.com" = (true, false)
    ∧ (∀ url, validate_email_domain "jane@gmail.com" url = (true, true))
    ∧ validate_email_domain "ops@other.com" "acme.com" = (false, false) := by
  refine ⟨?_, by decide, ?_, by decide⟩
  · intro email url
    simp only [validate_email_domain, spec_validate_email_domain]
    split_ifs <;> simp_all
  · intro url
    simp only [validate_email_domain]
    split_ifs with h1 h2 h3 h4
    · rfl
    all_goals exact absurd (by decide) h1

/-- C3.  With a configured API key and the first two attempts failing
transiently, `generate_profile` with the default 3 retries either
(a) fails on a transient third attempt with that handler's descriptive
non-empty message, after exactly 3 attempts and exactly the two backoff
sleeps 1s then 4s (none after the last attempt), or (b) returns the
profile parsed on the successful third attempt with a null error, again
after 3 attempts and the same two sleeps. -/
theorem synthesizer_retry_schedule (apiKey : String) (hk : apiKey ≠ "")
    (wd : WorkerData) (outcomes : Nat → SynthOutcome)
    (h0 : (outcomes 0).isTransient = true) (h1 : (outcomes 1).isTransient = true) :
    ((outcomes 2).isTransient = true →
      generate_profile apiKey wd outcomes 3
        = ⟨none, some (outcomes 2).failureMsg, 3, [1, 4]⟩
      ∧ (outcomes 2).failureMsg ≠ "")
    ∧ (∀ p, outcomes 2 = .ok p →
      generate_profile apiKey wd outcomes 3
        = ⟨some (p, if (validate_profile p wd).1 then none
                    else some (validate_profile p wd).2), none, 3, [1, 4]⟩) := by
  have e0 : attemptLoop wd outcomes 3 3 0
      = ⟨(attemptLoop wd outcomes 3 2 1).profile,
         (attemptLoop wd outcomes 3 2 1).error,
         (attemptLoop wd outcomes 3 2 1).attemptsMade + 1,
         1 :: (attemptLoop wd outcomes 3 2 1).sleeps⟩ :=
    attemptLoop_not_ok_retry wd outcomes 3 2 0 (isTransient_not_ok _ h0) (by omega)
  have e1 : attemptLoop wd outcomes 3 2 1
      = ⟨(attemptLoop wd outcomes 3 1 2).profile,
         (attemptLoop wd outcomes 3 1 2).error,
         (attemptLoop wd outcomes 3 1 2).attemptsMade + 1,
         4 :: (attemptLoop wd outcomes 3 1 2).sleeps⟩ :=
    attemptLoop_not_ok_retry wd outcomes 3 1 1 (isTransient_not_ok _ h1) (by omega)
  constructor
  · intro h2
    have e2 : attemptLoop wd outcomes 3 1 2
        = ⟨none, some (outcomes 2).failureMsg, 1, []⟩ :=
      attemptLoop_not_ok_last wd outcomes 3 0 2 (isTransient_not_ok _ h2) (by omega)
    refine ⟨?_, transient_failureMsg_ne_empty _ h2⟩
    simp only [generate_profile, if_neg hk]
    rw [e0, e1, e2]
  · intro p hp
    have e2 : attemptLoop wd outcomes 3 1 2
        = ⟨some (p, if (validate_profile p wd).1 then none
                    else some (validate_profile p wd).2), none, 1, []⟩ :=
      attemptLoop_ok wd outcomes 3 0 2 p hp
    simp only [generate_profile, if_neg hk]
    rw [e0, e1, e2]

/-- Witness for C3: three concrete transient outcomes exhaust the
retries with the parse-error message after 3 attempts and sleeps
1s, 4s; the validated-success branch is exercised with a success on
attempt 3. -/
theorem synthesizer_retry_schedule_witness :
    (generate_profile "key"
        ⟨⟨true, none⟩, ⟨true, none, []⟩, ⟨true, none, [], none⟩,
         ⟨true, none, none⟩, ⟨true, none, 0⟩⟩
        (fun i => if i = 0 then SynthOutcome.rateLimited
                  else if i = 1 then SynthOutcome.apiError "x"
                  else SynthOutcome.parseError "y") 3
      = ⟨none, some (SynthOutcome.parseError "y").failureMsg, 3, [1, 4]⟩
      ∧ (SynthOutcome.parseError "y").failureMsg ≠ "")
    ∧ generate_profile "key"
        ⟨⟨true, none⟩, ⟨true, none, []⟩, ⟨true, none, [], none⟩,
         ⟨true, none, none⟩, ⟨true, none, 0⟩⟩
        (fun i => if i = 0 then SynthOutcome.rateLimited
                  else if i = 1 then SynthOutcome.apiError "x"
                  else SynthOutcome.ok ⟨none, none, none⟩) 3
      = ⟨some (⟨none, none, none⟩,
           if (validate_profile ⟨none, none, none⟩
                ⟨⟨true, none⟩, ⟨true, none, []⟩, ⟨true, none, [], none⟩,
                 ⟨true, none, none⟩, ⟨true, none, 0⟩⟩).1 then none
           else some (validate_profile ⟨none, none, none⟩
                ⟨⟨true, none⟩, ⟨true, none, []⟩, ⟨true, none, [], none⟩,
                 ⟨true, none, none⟩, ⟨true, none, 0⟩⟩).2), none, 3, [1, 4]⟩ :=
  ⟨(synthesizer_retry_schedule "key" (by decide) _ _ (by decide) (by decide)).1 (by decide),
   (synthesizer_retry_schedule "key" (by decide) _ _ (by decide) (by decide)).2
     ⟨none, none, none⟩ (by decide)⟩

/-- C5 counterexample.  The reputation provider call SUCCEEDED but
returned no usable rating (`rating = None`), the narrative mentions a
rating and does not say the data is unavailable — yet `validate_profile`
flags nothing, because its reputation check only fires when the
provider call did not succeed.  This refutes the claim's "returned no
usable rating" trigger as stated. -/
theorem rating_flag_counterexample :
    pyIn "rating" (strLower "Customers mention a 4.8 rating") = true
    ∧ pyIn "no data" (strLower "Customers mention a 4.8 rating") = false
    ∧ pyIn "unavailable" (strLower "Customers mention a 4.8 rating") = false
    ∧ validate_profile ⟨none, some "Customers mention a 4.8 rating", none⟩
        ⟨⟨false, some "e"⟩, ⟨false, some "e", []⟩, ⟨false, some "e", [], none⟩,
         ⟨true, none, none⟩, ⟨false, some "e", 0⟩⟩
      = (true, []) := by decide

/-- C5 (amended).  When the reputation provider call did NOT succeed
and the narrative mentions stars or a rating without stating the data
is unavailable, `validate_profile` records the fabrication flag (so its
validity bit is false), and on a successful synthesis attempt
`generate_profile` attaches the issues to the profile and still returns
it with a null error. -/
theorem rating_flag_on_provider_failure (p : ProfileDict) (wd : WorkerData)
    (reputation : String)
    (hrep : p.public_reputation = some reputation)
    (hgb : wd.google_business.success = false)
    (hmention : pyIn "stars" (strLower reputation) = true
      ∨ pyIn "rating" (strLower reputation) = true)
    (hnodata : pyIn "no data" (strLower reputation) = false)
    (hunavail : pyIn "unavailable" (strLower reputation) = false) :
    ("Profile claims review data but Google Business data was unavailable"
        ∈ (validate_profile p wd).2
      ∧ (validate_profile p wd).1 = false)
    ∧ (∀ apiKey outcomes, apiKey ≠ "" → outcomes 0 = SynthOutcome.ok p →
        (generate_profile apiKey wd outcomes 3).error = none
        ∧ (generate_profile apiKey wd outcomes 3).profile
            = some (p, some (validate_profile p wd).2)) := by
  have hor : (pyIn "stars" (strLower reputation)
      || pyIn "rating" (strLower reputation)) = true := by
    rcases hmention with h | h <;> simp [h]
  have hmem : "Profile claims review data but Google Business data was unavailable"
      ∈ (validate_profile p wd).2 := by
    simp only [validate_profile, hrep, hgb, hor, hnodata, hunavail]
    simp
  have hfst : (validate_profile p wd).1 = false := by
    rw [validate_profile_fst]
    cases hl : (validate_profile p wd).2 with
    | nil => rw [hl] at hmem; cases hmem
    | cons a t => rfl
  refine ⟨⟨hmem, hfst⟩, ?_⟩
  intro apiKey outcomes hk hout
  have e0 : attemptLoop wd outcomes 3 3 0
      = ⟨some (p, if (validate_profile p wd).1 then none
                  else some (validate_profile p wd).2), none, 1, []⟩ :=
    attemptLoop_ok wd outcomes 3 2 0 p hout
  rw [hfst] at e0
  have hg : generate_profile apiKey wd outcomes 3 = attemptLoop wd outcomes 3 3 0 := by
    simp only [generate_profile, if_neg hk]
  rw [hg, e0]
  exact ⟨rfl, rfl⟩

/-- Witness for C5 (amended) at a concrete failed provider and
narrative. -/
theorem rating_flag_on_provider_failure_witness :
    ("Profile claims review data but Google Business data was unavailable"
        ∈ (validate_profile ⟨none, some "Rated 4.8 stars by customers", none⟩
            ⟨⟨false, some "e"⟩, ⟨false, some "e", []⟩, ⟨false, some "e", [], none⟩,
             ⟨false, some "boom", none⟩, ⟨false, some "e", 0⟩⟩).2
      ∧ (validate_profile ⟨none, some "Rated 4.8 stars by customers", none⟩
            ⟨⟨false, some "e"⟩, ⟨false, some "e", []⟩, ⟨false, some "e", [], none⟩,
             ⟨false, some "boom", none⟩, ⟨false, some "e", 0⟩⟩).1 = false)
    ∧ (∀ apiKey outcomes, apiKey ≠ ""
        → outcomes 0 = SynthOutcome.ok ⟨none, some "Rated 4.8 stars by customers", none⟩
        → (generate_profile apiKey
            ⟨⟨false, some "e"⟩, ⟨false, some "e", []⟩, ⟨false, some "e", [], none⟩,
             ⟨false, some "boom", none⟩, ⟨false, some "e", 0⟩⟩ outcomes 3).error = none
        ∧ (generate_profile apiKey
            ⟨⟨false, some "e"⟩, ⟨false, some "e", []⟩, ⟨false, some "e", [], none⟩,
             ⟨false, some "boom", none⟩, ⟨false, some "e", 0⟩⟩ outcomes 3).profile
          = some (⟨none, some "Rated 4.8 stars by customers", none⟩,
              some (validate_profile ⟨none, some "Rated 4.8 stars by customers", none⟩
                ⟨⟨false, some "e"⟩, ⟨false, some "e", []⟩, ⟨false, some "e", [], none⟩,
                 ⟨false, some "boom", none⟩, ⟨false, some "e", 0⟩⟩).2)) :=
  rating_flag_on_provider_failure _ _ "Rated 4.8 stars by customers"
    rfl rfl (Or.inl (by decide)) (by decide) (by decide)

/-- C4 counterexample.  When the upstream job-search API answers with an
`error` field that is the empty string, the worker passes it through
verbatim, so the aggregated dataset's `job_scanner` entry has
`success = false` with an EMPTY error string — refuting the claim's
"non-empty error string" for every outcome. -/
theorem fan_out_empty_error_counterexample :
    (fan_out .ok (.ok []) (.ok [] none) (.ok none)
        (.response ⟨some "", 0⟩)).job_scanner.success = false
    ∧ (fan_out .ok (.ok []) (.ok [] none) (.ok none)
        (.response ⟨some "", 0⟩)).job_scanner.error = some ""
    ∧ ("job_scanner", false, some "")
        ∈ entriesOf (fan_out .ok (.ok []) (.ok [] none) (.ok none)
            (.response ⟨some "", 0⟩)) := by decide

/-- C4 (amended).  For every outcome of the five configured provider
calls the aggregated dataset has exactly the five entries, one per
provider; each provider's entry is a function of its own call alone (no
failure aborts the fan-out or touches a sibling's slot); and every
failed entry carries `success = false` and an error string that is
non-empty — except when the job scanner passes through an upstream API
error message that is itself empty. -/
theorem fan_out_five_entries_isolated (c1 : SiteScraperCall) (c2 : TechDetectorCall)
    (c3 : DnsWhoisCall) (c4 : GoogleBusinessCall) (c5 : JobScannerCall) :
    ((entriesOf (fan_out c1 c2 c3 c4 c5)).map Prod.fst
      = ["site_scraper", "tech_detector", "dns_whois", "google_business", "job_scanner"])
    ∧ (fan_out c1 c2 c3 c4 c5).site_scraper = scrape_site c1
    ∧ (fan_out c1 c2 c3 c4 c5).tech_detector = detect_technologies c2
    ∧ (fan_out c1 c2 c3 c4 c5).dns_whois = lookup_dns_whois c3
    ∧ (fan_out c1 c2 c3 c4 c5).google_business = fetch_google_business c4
    ∧ (fan_out c1 c2 c3 c4 c5).job_scanner = scan_job_postings c5
    ∧ (∀ entry ∈ entriesOf (fan_out c1 c2 c3 c4 c5), entry.2.1 = false →
        ∃ msg, entry.2.2 = some msg
          ∧ (msg ≠ "" ∨ ∃ r : JobsResponse, c5 = .response r ∧ r.errorField = some msg)) := by
  refine ⟨rfl, rfl, rfl, rfl, rfl, rfl, ?_⟩
  intro entry hmem hfail
  simp only [entriesOf, fan_out, organize_results, organizeSite, organizeTech, organizeDns,
    organizeGb, organizeJob, List.mem_cons, List.not_mem_nil, or_false] at hmem
  rcases hmem with rfl | rfl | rfl | rfl | rfl
  · obtain ⟨msg, hm, hne⟩ := site_fail_msg c1 hfail
    exact ⟨msg, hm, Or.inl hne⟩
  · obtain ⟨msg, hm, hne⟩ := tech_fail_msg c2 hfail
    exact ⟨msg, hm, Or.inl hne⟩
  · obtain ⟨msg, hm, hne⟩ := dns_fail_msg c3 hfail
    exact ⟨msg, hm, Or.inl hne⟩
  · obtain ⟨msg, hm, hne⟩ := gb_fail_msg c4 hfail
    exact ⟨msg, hm, Or.inl hne⟩
  · exact job_fail_msg c5 hfail

/-- Witness for C4 (amended): a timed-out site scraper's entry carries
its non-empty timeout message. -/
theorem fan_out_five_entries_isolated_witness :
    ∃ msg, (("site_scraper", (scrape_site .timeout).success,
        (scrape_site .timeout).error) : String × Bool × Option String).2.2 = some msg
      ∧ (msg ≠ "" ∨ ∃ r : JobsResponse,
          JobScannerCall.response ⟨none, 0⟩ = .response r ∧ r.errorField = some msg) :=
  (fan_out_five_entries_isolated .timeout (.ok []) (.ok [] none) (.ok none)
      (.response ⟨none, 0⟩)).2.2.2.2.2.2
    ("site_scraper", (scrape_site .timeout).success, (scrape_site .timeout).error)
    (by decide) (by decide)

/-- C6 counterexample.  A request whose email domain is invalid, coming
from an IP already over the limit, is rejected with the RATE-LIMIT
error, not the domain-validation error: the handler consults the rate
limiter first, contrary to the claimed order. -/
theorem intake_order_counterexample :
    validate_email_domain "ops@other.com" "acme.com" = (false, false)
    ∧ submit_intake 0 (.live (some ⟨12, 3600⟩)) "ops@other.com" "acme.com" true
      = .rateLimited := by decide

/-- C6 (amended).  The intake handler applies the Rate Limiter before
the Domain Validator: a rate-limited request is rejected with the
rate-limit error regardless of the email domain, and the
domain-validation rejection is issued only once the rate limiter has
allowed the request. -/
theorem intake_rate_limit_precedes_domain_validation (now : Nat) (conn : RedisConn)
    (email url : String) (dbOk : Bool) :
    ((check_rate_limit_conn now conn).1 = false →
      submit_intake now conn email url dbOk = .rateLimited)
    ∧ ((check_rate_limit_conn now conn).1 = true →
        (validate_email_domain email url).1 = false →
        submit_intake now conn email url dbOk = .invalidEmail) := by
  constructor
  · intro h
    simp [submit_intake, h]
  · intro h hv
    simp [submit_intake, h, hv]

/-- Witness for C6 (amended) at a concrete blocked store and a concrete
allowed store with an invalid email. -/
theorem intake_rate_limit_precedes_domain_validation_witness :
    submit_intake 7 (.live (some ⟨11, 3600⟩)) "ops@other.com" "acme.com" true
      = .rateLimited
    ∧ submit_intake 7 (.live none) "ops@other.com" "acme.com" true = .invalidEmail :=
  ⟨(intake_rate_limit_precedes_domain_validation 7 (.live (some ⟨11, 3600⟩))
      "ops@other.com" "acme.com" true).1 (by decide),
   (intake_rate_limit_precedes_domain_validation 7 (.live none)
      "ops@other.com" "acme.com" true).2 (by decide) (by decide)⟩

/-- C7.  When the cache lookup finds a prior complete submission with
the same normalized URL inside the 24-hour window and that submission
has a stored profile, and the current submission row exists, the
pipeline clones the cached profile (same payload, sources list and
confidence score) onto the current submission, finishes `complete`,
and never reaches the provider fan-out or the synthesis call. -/
theorem cache_hit_clones_profile (db : Db) (now : Nat) (jobId companyUrl : String)
    (wd : WorkerData) (apiKey : String) (outcomes : Nat → SynthOutcome)
    (cached : SubmissionRow) (cachedProfile : ProfileRow) (current : SubmissionRow)
    (hc : get_submission_by_url db now (normalize_url companyUrl) = some cached)
    (hp : get_profile_by_submission_id db cached.id = some cachedProfile)
    (hcur : get_submission_by_job_id db jobId = some current) :
    process_submission db now jobId companyUrl wd apiKey outcomes
      = ⟨SubmissionStatus.complete,
         some ⟨current.id, cachedProfile.profile_json, cachedProfile.data_sources_used,
               cachedProfile.confidence_score⟩,
         false, false⟩ := by
  have hst := (get_submission_by_url_spec db now _ cached hc).2.1
  simp [process_submission, hc, hst, hp, hcur]

/-- Witness for C7: a concrete database holding a complete prior
submission for the same URL (created 4000 seconds earlier) with a
stored profile, and a fresh processing submission; the run clones the
profile and never fans out. -/
theorem cache_hit_clones_profile_witness :
    process_submission
      ⟨[⟨1, "https://acme.com", "job-old", .complete, 1000⟩,
        ⟨2, "https://acme.com", "job-new", .processing, 5000⟩],
       [⟨1, (⟨none, none, some "High"⟩, none), ["Website Content"], "High"⟩]⟩
      5000 "job-new" "acme.com"
      ⟨⟨false, some "e"⟩, ⟨false, some "e", []⟩, ⟨false, some "e", [], none⟩,
       ⟨false, some "e", none⟩, ⟨false, some "e", 0⟩⟩
      "" (fun _ => SynthOutcome.rateLimited)
      = ⟨SubmissionStatus.complete,
         some ⟨2, (⟨none, none, some "High"⟩, none), ["Website Content"], "High"⟩,
         false, false⟩ :=
  cache_hit_clones_profile _ 5000 "job-new" "acme.com" _ "" _
    ⟨1, "https://acme.com", "job-old", .complete, 1000⟩
    ⟨1, (⟨none, none, some "High"⟩, none), ["Website Content"], "High"⟩
    ⟨2, "https://acme.com", "job-new", .processing, 5000⟩
    (by decide) (by decide) (by decide)

end Harness
